import Mathlib

/-!
Shallow embedding of `src/podcast_backup.py` (podcast-backer-upper).

Python strings are modelled as Lean `String` / `List Char` (ASCII-faithful),
Python `None`-able values as `Option`, raised exceptions as `Except`, and the
file system as a partial map from paths to byte lists.  Each definition below
names the source function it embeds.
-/

namespace PodcastBackup

/-- Python `p in s` substring test, helper: `p` is a prefix of `s`. -/
def prefixB : List Char → List Char → Bool
  | [], _ => true
  | _ :: _, [] => false
  | a :: as, b :: bs => a == b && prefixB as bs

/-- Python `p in s` substring test on character lists. -/
def substrB (p : List Char) : List Char → Bool
  | [] => p.isEmpty
  | c :: rest => prefixB p (c :: rest) || substrB p rest

/-- Python `p in s` substring test on strings. -/
def substrS (p s : String) : Bool := substrB p.data s.data

/-- Python `str.lower` (ASCII). -/
def pyLower (s : String) : String := ⟨s.data.map Char.toLower⟩

/-- Python `\s` / `str.isspace` whitespace class (ASCII part). -/
def pyIsSpace (c : Char) : Bool :=
  c = ' ' || c = '\t' || c = '\n' || c = '\x0d' || c = '\x0b' || c = '\x0c'

/-- The character class removed by `sanitize_filename`: `[<>:"/\\|?*]`. -/
def illegalChar (c : Char) : Bool :=
  c = '<' || c = '>' || c = ':' || c = '"' || c = '/' || c = '\\' || c = '|' ||
    c = '?' || c = '*'

/-- `re.sub(r'\s+', ' ', ·)` after every whitespace char has been mapped to a
single space: collapse runs of spaces to one space. -/
def squeezeSpaces : List Char → List Char
  | [] => []
  | [c] => [c]
  | a :: b :: rest =>
    if a = ' ' && b = ' ' then squeezeSpaces (b :: rest)
    else a :: squeezeSpaces (b :: rest)

/-- Python `str.strip()` at a point where the only whitespace left is `' '`. -/
def stripSpaces (l : List Char) : List Char :=
  ((l.dropWhile (fun c => c = ' ')).reverse.dropWhile (fun c => c = ' ')).reverse

/-- Python `name[:max_length].rsplit('-', 1)[0]` after the take: everything
before the last `'-'`, or the whole list if there is no `'-'`. -/
def rsplitLastDash (l : List Char) : List Char :=
  if '-' ∈ l then ((l.reverse.dropWhile (fun c => c != '-')).drop 1).reverse else l

/-- `sanitize_filename(name, max_length)` (source lines 170-179). -/
def sanitize_filename (name : String) (max_length : Nat) : String :=
  let l1 := name.data.filter (fun c => !(illegalChar c))
  let l2 := squeezeSpaces (l1.map (fun c => if pyIsSpace c then ' ' else c))
  let l3 := stripSpaces l2
  let l4 := l3.map (fun c => if c = ' ' then '-' else c)
  let l5 := if max_length < l4.length then rsplitLastDash (l4.take max_length) else l4
  if l5.isEmpty then "untitled" else ⟨l5⟩

/-- Audio extensions recognised by `is_likely_audio_url`. -/
def audio_extensions : List String :=
  [".mp3", ".m4a", ".aac", ".ogg", ".wav", ".flac", ".opus"]

/-- Suspicious URL patterns and their rejection reasons (source lines 149-155). -/
def suspicious_patterns : List (String × String) :=
  [("media.php", "URL appears to be a PHP page, not an audio file"),
   ("pageID=", "URL appears to be a webpage with page ID"),
   (".html", "URL appears to be an HTML page"),
   (".htm", "URL appears to be an HTML page"),
   ("view=", "URL appears to be a webpage view")]

/-- Python `url.split('/')[-1]`. -/
def lastSegment (s : String) : String :=
  ⟨(s.data.reverse.takeWhile (fun c => c != '/')).reverse⟩

/-- `is_likely_audio_url(url)` (source lines 134-167). -/
def is_likely_audio_url (url : String) : Bool × String :=
  if url = "" then (false, "No URL provided")
  else
    let url_lower := pyLower url
    let has_audio_ext := audio_extensions.any (fun ext => substrS ext url_lower)
    match suspicious_patterns.find? (fun p => substrS p.1 url) with
    | some p => (false, p.2)
    | none =>
      if !has_audio_ext && substrS "." (lastSegment url) then
        (false, "URL doesn\x27t appear to have an audio file extension")
      else (true, "OK")

/-- The input type of `parse_duration`: Python `str | int | None`. -/
inductive DurationVal where
  | pynone : DurationVal
  | pyint (i : Int) : DurationVal
  | pystr (s : String) : DurationVal
deriving DecidableEq

/-- Python `str.strip()` (ASCII whitespace). -/
def pyStrip (l : List Char) : List Char :=
  ((l.dropWhile pyIsSpace).reverse.dropWhile pyIsSpace).reverse

/-- Digit-run with single underscores between digits, as accepted by
Python `int()` after an optional sign: `digit (('_')? digit)*`. -/
def pyIntDigits : List Char → Bool
  | [] => false
  | c :: rest => c.isDigit && pyIntDigitsTail rest
where
  pyIntDigitsTail : List Char → Bool
    | [] => true
    | '_' :: c :: rest => c.isDigit && pyIntDigitsTail rest
    | c :: rest => c.isDigit && pyIntDigitsTail rest

/-- Numeric value of a digit run (underscores skipped). -/
def digitsVal (l : List Char) : Nat :=
  l.foldl (fun acc c => if c = '_' then acc else acc * 10 + (c.toNat - 48)) 0

/-- Python `int(s)` on a string: strip whitespace, optional sign, digit run
(single underscores allowed between digits); `none` models `ValueError`. -/
def pyToInt (s : String) : Option Int :=
  let l := pyStrip s.data
  match l with
  | '+' :: rest => if pyIntDigits rest then some (digitsVal rest : Int) else none
  | '-' :: rest => if pyIntDigits rest then some (-(digitsVal rest : Int)) else none
  | _ => if pyIntDigits l then some (digitsVal l : Int) else none

/-- Python `str.isdigit()` (ASCII): nonempty and all digits. -/
def pyIsDigitStr (l : List Char) : Bool :=
  !l.isEmpty && l.all Char.isDigit

/-- Python `s.split(':')` on character lists. -/
def splitColon (l : List Char) : List (List Char) :=
  match l with
  | [] => [[]]
  | c :: rest =>
    match splitColon rest with
    | [] => if c = ':' then [[], []] else [[c]]
    | seg :: segs => if c = ':' then [] :: seg :: segs else (c :: seg) :: segs

/-- `parse_duration(duration_str)` (source lines 409-432). -/
def parse_duration : DurationVal → Option Int
  | .pynone => none
  | .pyint i => some i
  | .pystr s =>
    let d := pyStrip s.data
    if pyIsDigitStr d then some (digitsVal d : Int)
    else
      match splitColon d with
      | [p0, p1, p2] =>
        match pyToInt ⟨p0⟩, pyToInt ⟨p1⟩, pyToInt ⟨p2⟩ with
        | some h, some m, some sec => some (h * 3600 + m * 60 + sec)
        | _, _, _ => none
      | [p0, p1] =>
        match pyToInt ⟨p0⟩, pyToInt ⟨p1⟩ with
        | some m, some sec => some (m * 60 + sec)
        | _, _ => none
      | _ => none

/-- Python `a or b` on optional strings: `None` and `''` are falsy. -/
def pyOrOpt (a b : Option String) : Option String :=
  match a with
  | some s => if s = "" then b else some s
  | none => b

/-- A feedparser link / enclosure object: the keys read by
`extract_episode_data` (`rel`, `type`, `href`, `url`, `length`). -/
structure FeedLink where
  rel : Option String := none
  type : Option String := none
  href : Option String := none
  url : Option String := none
  length : Option String := none
deriving DecidableEq

/-- Match condition of the first scan in `extract_episode_data` (line 443):
`link.get('rel') == 'enclosure' or 'audio' in link.get('type', '')`. -/
def linksMatch (l : FeedLink) : Bool :=
  l.rel == some "enclosure" || substrS "audio" (l.type.getD "")

/-- Match condition of the second scan (line 451):
`'audio' in enc.get('type', '')`. -/
def encMatch (l : FeedLink) : Bool :=
  substrS "audio" (l.type.getD "")

/-- The enclosure-resolution part of `extract_episode_data` (lines 437-455):
scan `links` (first match, break), then scan `enclosures` (first match,
break); a match in the second loop overwrites the first loop's result.
Returns `(enclosure_url, enclosure_type, enclosure_size)`. -/
def find_enclosure (links enclosures : List FeedLink) :
    Option String × Option String × Option String :=
  let fromLinks :=
    match links.find? linksMatch with
    | some l => (l.href, l.type, l.length)
    | none => (none, none, none)
  match enclosures.find? encMatch with
  | some e => (pyOrOpt e.href e.url, e.type, e.length)
  | none => fromLinks

/-- Python `time.struct_time`, restricted to the fields the program reads
(`tm_year`, `tm_mon`, `tm_mday`); comparison is lexicographic as for Python
tuples, which these leading fields decide for distinct dates. -/
structure StructTime where
  tm_year : Nat
  tm_mon : Nat
  tm_mday : Nat
deriving DecidableEq

/-- A parsed feed entry: the keys `extract_episode_data` reads.  Passthrough
keys not used by any claim (`content`, `image`, `itunes_order`, `link`) are
omitted. -/
structure FeedEntry where
  title : Option String := none
  id : Option String := none
  guid : Option String := none
  description : Option String := none
  summary : Option String := none
  author : Option String := none
  itunes_author : Option String := none
  itunes_subtitle : Option String := none
  published : Option String := none
  published_parsed : Option StructTime := none
  itunes_duration : DurationVal := .pynone
  links : List FeedLink := []
  enclosures : List FeedLink := []
deriving DecidableEq

/-- The episode record built by `extract_episode_data`, extended with the
run-computed fields assigned in `backup_podcast` (lines 947-957) and the
failure flags (`audio_missing`, `audio_error`). -/
structure EpData where
  title : String
  guid : Option String
  description : String
  summary : String
  author : Option String
  subtitle : Option String
  published : Option String
  published_parsed : Option StructTime
  duration : Option Int
  enclosure_url : Option String
  enclosure_type : Option String
  enclosure_size : Option String
  local_filename : String := ""
  episode_number : Nat := 0
  dateStamp : String := ""
  audio_missing : Bool := false
  audio_error : Option String := none
deriving DecidableEq

/-- `extract_episode_data(entry)` (source lines 435-481). -/
def extract_episode_data (entry : FeedEntry) : EpData :=
  let found := find_enclosure entry.links entry.enclosures
  { title := entry.title.getD "Untitled"
    guid := pyOrOpt entry.id entry.guid
    description := entry.description.getD ""
    summary := entry.summary.getD ""
    author := pyOrOpt entry.itunes_author entry.author
    subtitle := entry.itunes_subtitle
    published := entry.published
    published_parsed := entry.published_parsed
    duration := parse_duration entry.itunes_duration
    enclosure_url := found.1
    enclosure_type := found.2.1
    enclosure_size := found.2.2 }

/-- The sort key of `backup_podcast` line 936:
`x[1].get('published_parsed') or (9999, 12, 31)`. -/
def stKey (d : Option StructTime) : StructTime := d.getD ⟨9999, 12, 31⟩

/-- Lexicographic tuple order on the modelled `struct_time` fields. -/
def stLe (a b : StructTime) : Bool :=
  if a.tm_year ≠ b.tm_year then a.tm_year < b.tm_year
  else if a.tm_mon ≠ b.tm_mon then a.tm_mon < b.tm_mon
  else a.tm_mday ≤ b.tm_mday

/-- Stable insert: place `x` before the first element `y` with `le x y`.
Used to model Python's stable `list.sort`. -/
def insertSorted {α : Type} (le : α → α → Bool) (x : α) : List α → List α
  | [] => [x]
  | y :: ys => if le x y then x :: y :: ys else y :: insertSorted le x ys

/-- Stable insertion sort; for a total preorder `le` this produces the same
list as any stable sort, hence models Python's `list.sort`. -/
def insertionSort {α : Type} (le : α → α → Bool) : List α → List α
  | [] => []
  | x :: xs => insertSorted le x (insertionSort le xs)

/-- The stable ascending sort of `backup_podcast` lines 934-938. -/
def sortEntries (eps : List EpData) : List EpData :=
  insertionSort (fun a b => stLe (stKey a.published_parsed) (stKey b.published_parsed)) eps

/-- The limit truncation of `backup_podcast` lines 941-944:
`if limit:` (both `None` and `0` are falsy) keep
`reversed(list(reversed(entries))[:limit])`. -/
def applyLimit (limit : Option Nat) (l : List EpData) : List EpData :=
  match limit with
  | none => l
  | some n => if n = 0 then l else (l.reverse.take n).reverse

/-- Python `f-string` `02d` padding. -/
def pad2 (n : Nat) : String := if n < 10 then "0" ++ toString n else toString n

/-- Python `str.zfill(6)`. -/
def zfill6 (s : String) : String :=
  if s.length < 6 then ⟨List.replicate (6 - s.length) '0'⟩ ++ s else s

/-- The per-episode body of the numbering loop (lines 947-957): assign
`local_filename`, `episode_number` and the date-prefix string. -/
def stampEpisode (idx : Nat) (ep : EpData) : EpData :=
  let safe_title := sanitize_filename ep.title 80
  let dp :=
    match ep.published_parsed with
    | some d => pad2 (d.tm_year % 100) ++ pad2 d.tm_mon ++ pad2 d.tm_mday
    | none => zfill6 (toString idx)
  { ep with
    local_filename := dp ++ "-" ++ safe_title ++ ".mp3"
    episode_number := idx
    dateStamp := dp }

/-- `for idx, (entry, ep_data) in enumerate(entries_with_dates, 1)`:
number the episodes starting at `idx`. -/
def numberFrom (idx : Nat) : List EpData → List EpData
  | [] => []
  | ep :: rest => stampEpisode idx ep :: numberFrom (idx + 1) rest

/-- The full extract-sort-limit-number pipeline of `backup_podcast`
(lines 929-957). -/
def plan_episodes (entries : List FeedEntry) (limit : Option Nat) : List EpData :=
  numberFrom 1 (applyLimit limit (sortEntries (entries.map extract_episode_data)))

/-- The file system: a partial map from paths to byte lists. -/
def FS : Type := String → Option (List Nat)

/-- Point update of the file system (`none` deletes). -/
def fsSet (fs : FS) (p : String) (v : Option (List Nat)) : FS :=
  fun q => if q = p then v else fs q

/-- Result of the modelled `download_file`: the returned value or the raised
error, the file system afterwards, and whether a network request was issued. -/
structure DlOutcome where
  res : Except String Int
  fs : FS
  requested : Bool

/-- `download_file(url, dest_path)` (source lines 182-223).  The network
transfer is a parameter: `.ok data` is a complete transfer of `data`,
`.error (msg, partialBytes)` is a transfer that fails after `partialBytes`
were already streamed to the temporary file.  `temp_path` models the fresh
name returned by `tempfile.mkstemp(dir=dest_path.parent)`. -/
def download_file (fs : FS) (dest_path temp_path : String)
    (transfer : Except (String × List Nat) (List Nat)) : DlOutcome :=
  if (fs dest_path).isSome then ⟨.ok (-1), fs, false⟩
  else
    let fs1 := fsSet fs temp_path (some [])
    match transfer with
    | .ok data =>
      let fs2 := fsSet fs1 temp_path (some data)
      let fs3 := fsSet (fsSet fs2 temp_path none) dest_path (some data)
      ⟨.ok (data.length : Int), fs3, true⟩
    | .error e =>
      let fs2 := fsSet fs1 temp_path (some e.2)
      let fs3 := fsSet fs2 temp_path none
      ⟨.error e.1, fs3, true⟩

/-- Statistics deltas produced by one episode's download section
(`BackupStats.increment` calls). -/
structure StatsDelta where
  downloaded : Nat := 0
  skipped_existing : Nat := 0
  metadata_only : Nat := 0
  errors : Nat := 0
  bytes_downloaded : Int := 0
deriving DecidableEq

/-- The audio-download section of the sequential loop in `backup_podcast`
(lines 1022-1036): skip-existing check, else `download_file`, with the
stats increments of each branch (`bytes_dl` is added as returned, so an
already-existing file under `skip_existing=False` adds `-1` bytes). -/
def seq_audio_step (skip_existing : Bool) (fs : FS) (dest_path temp_path : String)
    (transfer : Except (String × List Nat) (List Nat)) :
    Except String Unit × StatsDelta × FS × Bool :=
  if skip_existing && (fs dest_path).isSome then
    (.ok (), { skipped_existing := 1 }, fs, false)
  else
    let r := download_file fs dest_path temp_path transfer
    match r.res with
    | .ok bytes_dl => (.ok (), { downloaded := 1, bytes_downloaded := bytes_dl }, r.fs, r.requested)
    | .error e => (.error e, {}, r.fs, r.requested)

/-- One metadata-writing tier, as a state transformer over the audio file's
tag state `σ`: the optional error it raises and the (possibly partial) tag
state it leaves behind. -/
structure TierRun (σ : Type) where
  err : Option String
  state : σ

/-- Result of the simple tier: like `TierRun`, plus whether the separate
artwork pass succeeded (`embed_metadata_simple`'s return value). -/
structure SimpleRun (σ : Type) where
  err : Option String
  state : σ
  artwork_added : Bool

/-- `embed_metadata(...)` (source lines 394-406): try the full tier; on any
failure try the simple tier on whatever state the full tier left; if both
fail, raise one error concatenating both messages.  No rollback: the final
tag state is whatever the last writer left. -/
def embed_metadata {σ : Type} (fullRun : σ → TierRun σ) (simpleRun : σ → SimpleRun σ)
    (s : σ) : Except String String × σ :=
  let f := fullRun s
  match f.err with
  | none => (.ok "full", f.state)
  | some e =>
    let sp := simpleRun f.state
    match sp.err with
    | none => (.ok (if sp.artwork_added then "simple_with_art" else "simple"), sp.state)
    | some e2 =>
      (.error ("Full method: " ++ e ++ "; Simple method: " ++ e2), sp.state)

/-- A raised Python exception: its text (`str(e)`) and its type name
(`type(e).__name__`). -/
structure PyErr where
  text : String
  ty : String
deriving DecidableEq

/-- `get_error_key(error)` (source lines 71-80). -/
def get_error_key (e : PyErr) : String :=
  if substrS "can\x27t sync to" (pyLower e.text) then "sync_to_frame"
  else if substrS "not a valid" (pyLower e.text) then "invalid_file"
  else e.ty

/-- The four values `handle_error_interactive` can return. -/
inductive Decision where
  | skip
  | skip_all
  | cont
  | abort
deriving DecidableEq

/-- The five menu choices of `handle_error_interactive`. -/
inductive UserChoice where
  | c1
  | c2
  | c3
  | c4
  | c5
deriving DecidableEq

/-- `handle_error_interactive(error, context, interactive)`
(source lines 83-131), with the module-global `_error_decisions` map passed
explicitly and the blocking `input()` supplied as `choice`.  Non-interactive
mode returns `skip_all` before consulting the remembered decisions;
choices 2 and 4 record their decision for the error key. -/
def handle_error_interactive (decisions : List (String × Decision)) (errKey : String)
    (interactive : Bool) (choice : UserChoice) :
    Decision × List (String × Decision) :=
  if !interactive then (.skip_all, decisions)
  else
    match decisions.lookup errKey with
    | some d => (d, decisions)
    | none =>
      match choice with
      | .c1 => (.skip, decisions)
      | .c2 => (.skip_all, (errKey, .skip_all) :: decisions)
      | .c3 => (.cont, decisions)
      | .c4 => (.cont, (errKey, .cont) :: decisions)
      | .c5 => (.abort, decisions)

/-- Python truthiness of an optional string (`if not ep_data.get(...)`). -/
def pyTruthyStr (o : Option String) : Bool :=
  match o with
  | none => false
  | some s => !(s = "")

/-- What one iteration of the sequential episode loop contributes to the
manifest's `episodes` list: the run aborts, the episode is dropped
(`continue`, no append), or the episode is appended. -/
inductive EpOutcome where
  | aborted
  | dropped
  | kept (ep : EpData)
deriving DecidableEq

/-- One iteration of the sequential episode loop of `backup_podcast`
(source lines 986-1085), as a function of the episode record, the
environment (existing file, download result, embed result) and the
interactive choices.  `dl` is the outcome of `download_file` when it is
called (`.ok` covers both a download and the already-exists `-1` return);
`embedR` is the outcome of `embed_metadata` when it is called. -/
def process_episode_seq (ep : EpData) (interactive : Bool)
    (decisions : List (String × Decision))
    (skip_existing fileExists : Bool)
    (dl : Except PyErr Int) (embedR : Except PyErr String)
    (urlChoice dlChoice embedChoice : UserChoice) :
    EpOutcome × List (String × Decision) :=
  if !pyTruthyStr ep.enclosure_url then (.dropped, decisions)
  else
    let url := ep.enclosure_url.getD ""
    let v := is_likely_audio_url url
    if !v.1 then
      let k := get_error_key ⟨"Invalid audio URL: " ++ v.2, "ValueError"⟩
      let hd := handle_error_interactive decisions k interactive urlChoice
      match hd.1 with
      | .abort => (.aborted, hd.2)
      | .skip => (.dropped, hd.2)
      | .skip_all => (.dropped, hd.2)
      | .cont =>
        (.kept { ep with audio_missing := true,
                         audio_error := some ("Invalid URL: " ++ v.2) }, hd.2)
    else
      -- embed section (lines 1064-1083), entered with audio_downloaded=True
      let embedSection := fun (decs : List (String × Decision)) =>
        match embedR with
        | .ok _ => (EpOutcome.kept ep, decs)
        | .error e2 =>
          let hd := handle_error_interactive decs (get_error_key e2) interactive embedChoice
          match hd.1 with
          | .abort => (EpOutcome.aborted, hd.2)
          | _ => (EpOutcome.kept ep, hd.2)
      -- download section (lines 1022-1050)
      if skip_existing && fileExists then embedSection decisions
      else
        match dl with
        | .ok _ => embedSection decisions
        | .error e =>
          let hd := handle_error_interactive decisions (get_error_key e) interactive dlChoice
          match hd.1 with
          | .abort => (.aborted, hd.2)
          | .skip => (.dropped, hd.2)
          | .skip_all => (.dropped, hd.2)
          | .cont =>
            -- audio_downloaded stays false: the embed section is skipped and
            -- the flagged record is appended (lines 1046-1050, 1082-1085)
            (.kept { ep with audio_missing := true, audio_error := some e.text }, hd.2)

/-- What the parallel path (`backup_podcast_parallel`, source lines 789-853)
contributes to the manifest's `episodes` list for one episode: `none` when
the episode is omitted (`continue` on a missing enclosure URL), otherwise
the appended record.  `dl` is the `download_episode_parallel` result for
episodes that are dispatched. -/
def process_episode_parallel (ep : EpData) (fileExists : Bool)
    (dl : Except String Int) : Option EpData :=
  if !pyTruthyStr ep.enclosure_url then none
  else
    let v := is_likely_audio_url (ep.enclosure_url.getD "")
    if !v.1 then
      some { ep with audio_missing := true, audio_error := some ("Invalid URL: " ++ v.2) }
    else if fileExists then some ep
    else
      match dl with
      | .ok _ => some ep
      | .error e => some { ep with audio_missing := true, audio_error := some e }

/-! Concrete inputs used by counterexamples and witnesses. -/

/-- Feed entry dated 2020-05-01, titled "b". -/
def cexEntryA : FeedEntry := { title := some "b", published_parsed := some ⟨2020, 5, 1⟩ }

/-- Feed entry dated 2021-06-02, titled "c". -/
def cexEntryB : FeedEntry := { title := some "c", published_parsed := some ⟨2021, 6, 2⟩ }

/-- Feed entry dated 2019-01-03, titled "a". -/
def cexEntryC : FeedEntry := { title := some "a", published_parsed := some ⟨2019, 1, 3⟩ }

/-- Feed entry dated 2020-05-01, titled "x" (used twice to exhibit a
filename collision). -/
def cexEntryDup : FeedEntry := { title := some "x", published_parsed := some ⟨2020, 5, 1⟩ }

/-- A links-list entry with relation "enclosure" and audio type, href "A". -/
def cexLinkA : FeedLink :=
  { rel := some "enclosure", type := some "audio/mpeg", href := some "A" }

/-- An enclosures-list entry with audio type, href "B". -/
def cexEncB : FeedLink := { type := some "audio/mpeg", href := some "B" }

/-- A feed entry carrying an audio match in both the links list and the
enclosures list. -/
def cexEntryEnc : FeedEntry :=
  { title := some "t", links := [cexLinkA], enclosures := [cexEncB] }

/-- An episode record with a well-formed audio enclosure URL. -/
def cexEpisode : EpData :=
  { title := "t", guid := none, description := "", summary := "", author := none,
    subtitle := none, published := none, published_parsed := none, duration := none,
    enclosure_url := some "https://h.example/ep.mp3", enclosure_type := some "audio/mpeg",
    enclosure_size := some "10" }

/-- An episode record whose enclosure URL is present but fails the URL
validity heuristic (a PHP page). -/
def cexEpisodeBadUrl : EpData :=
  { cexEpisode with enclosure_url := some "https://example.com/media.php?id=1" }

end PodcastBackup

namespace PodcastBackup

/-! Theorems.  General helper lemmas first. -/

theorem prefixB_append : ∀ (p r : List Char), prefixB p (p ++ r) = true
  | [], _ => rfl
  | a :: as, r => by simp [prefixB, prefixB_append as r]

theorem substrB_of_prefixB (p s : List Char) (h : prefixB p s = true) :
    substrB p s = true := by
  cases s with
  | nil =>
    cases p with
    | nil => rfl
    | cons a as => simp [prefixB] at h
  | cons c rest => simp [substrB, h]

theorem substrB_sandwich : ∀ (p l r : List Char), substrB p (l ++ p ++ r) = true
  | p, [], r => substrB_of_prefixB p (p ++ r) (prefixB_append p r)
  | p, c :: l, r => by
    have h := substrB_sandwich p l r
    show (prefixB p ((c :: l) ++ p ++ r) || substrB p (l ++ p ++ r)) = true
    rw [h, Bool.or_true]

/-- C4: `download_file` returns `-1` untouched-state when the destination
exists; otherwise it stages the transfer in the sibling temporary file and
renames into place only on success; on a transfer error the temporary file
is deleted, the error is propagated, and the file system (in particular the
destination) is exactly as before — never a partial write at the
destination. -/
theorem c4_download_file_atomic (fs : FS) (dest temp : String)
    (transfer : Except (String × List Nat) (List Nat)) :
    ((fs dest).isSome → download_file fs dest temp transfer = ⟨.ok (-1), fs, false⟩) ∧
    (fs dest = none → fs temp = none → temp ≠ dest →
      (∀ data, transfer = .ok data →
        (download_file fs dest temp transfer).res = .ok (data.length : Int) ∧
        (download_file fs dest temp transfer).fs dest = some data ∧
        (download_file fs dest temp transfer).fs temp = none ∧
        (∀ q, q ≠ dest → (download_file fs dest temp transfer).fs q = fs q)) ∧
      (∀ msg partialBytes, transfer = .error (msg, partialBytes) →
        (download_file fs dest temp transfer).res = .error msg ∧
        (download_file fs dest temp transfer).fs = fs)) := by
  constructor
  · intro h
    simp [download_file, h]
  · intro hdest htemp hne
    have hnot : ¬ (fs dest).isSome := by simp [hdest]
    constructor
    · rintro data rfl
      refine ⟨by simp [download_file, hnot], ?_, ?_, ?_⟩
      · simp [download_file, hnot, fsSet]
      · simp [download_file, hnot, fsSet, hne]
      · intro q hq
        by_cases hqt : q = temp
        · subst hqt
          simp [download_file, hnot, fsSet, hq, htemp.symm, hne]
        · simp [download_file, hnot, fsSet, hq, hqt]
    · rintro msg partialBytes rfl
      refine ⟨by simp [download_file, hnot], ?_⟩
      funext q
      by_cases hqt : q = temp
      · subst hqt
        simp [download_file, hnot, fsSet, htemp.symm]
      · simp [download_file, hnot, fsSet, hqt]

/-- Witness for C4: a fresh destination, a complete 3-byte transfer, and a
failing transfer, at concrete inputs. -/
theorem c4_download_file_atomic_witness :
    (download_file (fun _ => none) "d" "t" (.ok [7, 8, 9])).res = .ok 3 ∧
    (download_file (fun _ => none) "d" "t" (.ok [7, 8, 9])).fs "d" = some [7, 8, 9] ∧
    (download_file (fun _ => none) "d" "t" (.error ("boom", [7]))).res = .error "boom" ∧
    (download_file (fun _ => none) "d" "t" (.error ("boom", [7]))).fs = (fun _ => none) := by
  have h := (c4_download_file_atomic (fun _ => none) "d" "t" (.ok [7, 8, 9])).2
    rfl rfl (by decide)
  have h2 := (c4_download_file_atomic (fun _ => none) "d" "t" (.error ("boom", [7]))).2
    rfl rfl (by decide)
  refine ⟨?_, (h.1 [7, 8, 9] rfl).2.1, (h2.2 "boom" [7] rfl).1, (h2.2 "boom" [7] rfl).2⟩
  have := (h.1 [7, 8, 9] rfl).1
  simpa using this

/-- C5: `embed_metadata` returns "full" iff the full tier succeeds; on full
failure it runs the simple tier on the state the full tier left, returning
"simple_with_art" or "simple" by the artwork flag; it raises iff both tiers
fail, with a message concatenating the full error then the simple error, and
the final tag state is whatever the failing simple writer left (no
rollback). -/
theorem c5_embed_metadata_fallback {σ : Type} (fullRun : σ → TierRun σ)
    (simpleRun : σ → SimpleRun σ) (s : σ) :
    ((fullRun s).err = none →
      embed_metadata fullRun simpleRun s = (.ok "full", (fullRun s).state)) ∧
    (∀ e, (fullRun s).err = some e →
      ((simpleRun (fullRun s).state).err = none →
        embed_metadata fullRun simpleRun s =
          (.ok (if (simpleRun (fullRun s).state).artwork_added then "simple_with_art"
                else "simple"),
           (simpleRun (fullRun s).state).state)) ∧
      (∀ e2, (simpleRun (fullRun s).state).err = some e2 →
        embed_metadata fullRun simpleRun s =
          (.error ("Full method: " ++ e ++ "; Simple method: " ++ e2),
           (simpleRun (fullRun s).state).state) ∧
        substrS e ("Full method: " ++ e ++ "; Simple method: " ++ e2) = true ∧
        substrS e2 ("Full method: " ++ e ++ "; Simple method: " ++ e2) = true)) ∧
    ((∃ msg, (embed_metadata fullRun simpleRun s).1 = .error msg) ↔
      ((fullRun s).err ≠ none ∧ (simpleRun (fullRun s).state).err ≠ none)) := by
  refine ⟨?_, ?_, ?_⟩
  · intro h
    simp [embed_metadata, h]
  · intro e he
    constructor
    · intro hs
      simp [embed_metadata, he, hs]
    · intro e2 he2
      refine ⟨by simp [embed_metadata, he, he2], ?_, ?_⟩
      · have : ("Full method: " ++ e ++ "; Simple method: " ++ e2).data =
            "Full method: ".data ++ e.data ++ ("; Simple method: " ++ e2).data := by
          simp [String.data_append]
        rw [substrS, this]
        exact substrB_sandwich e.data _ _
      · have : ("Full method: " ++ e ++ "; Simple method: " ++ e2).data =
            ("Full method: " ++ e ++ "; Simple method: ").data ++ e2.data ++ [] := by
          simp [String.data_append]
        rw [substrS, this]
        exact substrB_sandwich e2.data _ _
  · constructor
    · rintro ⟨msg, hmsg⟩
      rcases hf : (fullRun s).err with _ | e
      · simp [embed_metadata, hf] at hmsg
      rcases hs : (simpleRun (fullRun s).state).err with _ | e2
      · simp [embed_metadata, hf, hs] at hmsg
      · simp [hf, hs]
    · rintro ⟨hf, hs⟩
      rcases hf2 : (fullRun s).err with _ | e
      · exact absurd hf2 hf
      rcases hs2 : (simpleRun (fullRun s).state).err with _ | e2
      · exact absurd hs2 hs
      exact ⟨"Full method: " ++ e ++ "; Simple method: " ++ e2,
        by simp [embed_metadata, hf2, hs2]⟩

/-- Witness for C5: both tiers fail at a concrete instance; the raised
message concatenates both error texts and the final state is the simple
writer's. -/
theorem c5_embed_metadata_fallback_witness :
    embed_metadata (fun n : Nat => ⟨some "fe", n + 1⟩) (fun n : Nat => ⟨some "se", n + 7, false⟩) 0 =
      (.error "Full method: fe; Simple method: se", 8) ∧
    embed_metadata (fun n : Nat => ⟨none, n + 1⟩) (fun n : Nat => ⟨some "se", n + 7, false⟩) 0 =
      (.ok "full", 1) := by
  constructor
  · have h := ((c5_embed_metadata_fallback (fun n : Nat => ⟨some "fe", n + 1⟩)
      (fun n : Nat => ⟨some "se", n + 7, false⟩) 0).2.1 "fe" rfl).2 "se" rfl
    simpa using h.1
  · have h := (c5_embed_metadata_fallback (fun n : Nat => ⟨none, n + 1⟩)
      (fun n : Nat => ⟨some "se", n + 7, false⟩) 0).1 rfl
    simpa using h

/-- C10: when the destination already exists, `download_file` returns `-1`
without issuing a network request and without touching the file system —
unconditionally, so with `skip_existing=False` the sequential loop still
never re-downloads or overwrites; the toggle only changes the statistics:
`skipped_existing+1` when on, versus `downloaded+1` and `bytes_downloaded-1`
when off. -/
theorem c10_skip_existing_frame (fs : FS) (dest temp : String)
    (transfer : Except (String × List Nat) (List Nat)) (content : List Nat) :
    fs dest = some content →
    (download_file fs dest temp transfer).requested = false ∧
    (download_file fs dest temp transfer).res = .ok (-1) ∧
    (download_file fs dest temp transfer).fs = fs ∧
    (∀ b, (seq_audio_step b fs dest temp transfer).2.2.1 = fs ∧
      (seq_audio_step b fs dest temp transfer).2.2.1 dest = some content ∧
      (seq_audio_step b fs dest temp transfer).2.2.2 = false ∧
      (seq_audio_step b fs dest temp transfer).1 = .ok ()) ∧
    (seq_audio_step true fs dest temp transfer).2.1 = { skipped_existing := 1 } ∧
    (seq_audio_step false fs dest temp transfer).2.1 =
      { downloaded := 1, bytes_downloaded := -1 } := by
  intro h
  have hsome : (fs dest).isSome := by simp [h]
  have hdl : download_file fs dest temp transfer = ⟨.ok (-1), fs, false⟩ := by
    simp [download_file, hsome]
  refine ⟨by simp [hdl], by simp [hdl], by simp [hdl], ?_, ?_, ?_⟩
  · intro b
    cases b <;> simp [seq_audio_step, hsome, hdl, h]
  · simp [seq_audio_step, hsome]
  · simp [seq_audio_step, hsome, hdl]

/-- Witness for C10 at a concrete one-file file system. -/
theorem c10_skip_existing_frame_witness :
    (download_file (fun q => if q = "d" then some [1] else none) "d" "t" (.ok [2])).requested
      = false ∧
    (seq_audio_step false (fun q => if q = "d" then some [1] else none) "d" "t" (.ok [2])).2.2.1
      "d" = some [1] ∧
    (seq_audio_step false (fun q => if q = "d" then some [1] else none) "d" "t" (.ok [2])).2.1 =
      { downloaded := 1, bytes_downloaded := -1 } := by
  have h := c10_skip_existing_frame (fun q => if q = "d" then some [1] else none) "d" "t"
    (.ok [2]) [1] (by simp)
  exact ⟨h.1, (h.2.2.2.1 false).2.1, h.2.2.2.2.2⟩

theorem splitColon_of_no_colon : ∀ (d : List Char), (∀ c ∈ d, c ≠ ':') →
    splitColon d = [d] := by
  intro d h
  induction d with
  | nil => rfl
  | cons c rest ih =>
    have hc : c ≠ ':' := h c (by simp)
    have hr := ih (fun x hx => h x (by simp [hx]))
    simp [splitColon, hr, hc]

theorem pyIsDigitStr_no_colon {d : List Char} (h : pyIsDigitStr d = true) :
    ∀ c ∈ d, c ≠ ':' := by
  intro c hc
  have hall := (Bool.and_eq_true _ _ |>.mp h).2
  have hd : c.isDigit = true := by
    rw [List.all_eq_true] at hall
    exact hall c hc
  intro hcol
  subst hcol
  simp [Char.isDigit] at hd

/-- C6: `parse_duration` is total over `None | int | str` and satisfies the
claimed shape equations: integers pass through, pure-digit strings parse as
seconds, `H:MM:SS` and `MM:SS` scale by 3600/60/1, and any other shape or
conversion failure yields `None`; in particular the four spec examples
hold. -/
theorem c6_parse_duration_shapes :
    parse_duration .pynone = none ∧
    (∀ i : Int, parse_duration (.pyint i) = some i) ∧
    (∀ s : String, pyIsDigitStr (pyStrip s.data) = true →
      parse_duration (.pystr s) = some (digitsVal (pyStrip s.data) : Int)) ∧
    (∀ (s : String) (p0 p1 p2 : List Char) (h m sec : Int),
      splitColon (pyStrip s.data) = [p0, p1, p2] →
      pyToInt ⟨p0⟩ = some h → pyToInt ⟨p1⟩ = some m → pyToInt ⟨p2⟩ = some sec →
      parse_duration (.pystr s) = some (h * 3600 + m * 60 + sec)) ∧
    (∀ (s : String) (p0 p1 : List Char) (m sec : Int),
      splitColon (pyStrip s.data) = [p0, p1] →
      pyToInt ⟨p0⟩ = some m → pyToInt ⟨p1⟩ = some sec →
      parse_duration (.pystr s) = some (m * 60 + sec)) ∧
    (∀ s : String, pyIsDigitStr (pyStrip s.data) = false →
      (∀ p0 p1 p2 : List Char, splitColon (pyStrip s.data) = [p0, p1, p2] →
        pyToInt ⟨p0⟩ = none ∨ pyToInt ⟨p1⟩ = none ∨ pyToInt ⟨p2⟩ = none) →
      (∀ p0 p1 : List Char, splitColon (pyStrip s.data) = [p0, p1] →
        pyToInt ⟨p0⟩ = none ∨ pyToInt ⟨p1⟩ = none) →
      parse_duration (.pystr s) = none) ∧
    parse_duration (.pystr "01:02:03") = some 3723 ∧
    parse_duration (.pystr "02:03") = some 123 ∧
    parse_duration (.pystr "not-a-time") = none ∧
    parse_duration (.pyint 90) = some 90 := by
  have hdig : ∀ s : String, ∀ p : List (List Char),
      splitColon (pyStrip s.data) = p → 2 ≤ p.length →
      pyIsDigitStr (pyStrip s.data) = false := by
    intro s p hp hlen
    by_contra hcon
    have htrue : pyIsDigitStr (pyStrip s.data) = true := by
      revert hcon
      cases pyIsDigitStr (pyStrip s.data) <;> simp
    have := splitColon_of_no_colon (pyStrip s.data) (pyIsDigitStr_no_colon htrue)
    rw [this] at hp
    subst hp
    simp at hlen
  refine ⟨rfl, fun i => rfl, ?_, ?_, ?_, ?_, by decide, by decide, by decide, rfl⟩
  · intro s h
    simp [parse_duration, h]
  · intro s p0 p1 p2 h m sec hsp h0 h1 h2
    have hfalse := hdig s [p0, p1, p2] hsp (by simp)
    simp [parse_duration, hfalse, hsp, h0, h1, h2]
  · intro s p0 p1 m sec hsp h0 h1
    have hfalse := hdig s [p0, p1] hsp (by simp)
    simp [parse_duration, hfalse, hsp, h0, h1]
  · intro s hfalse h3 h2
    rcases hsp : splitColon (pyStrip s.data) with _ | ⟨a, _ | ⟨b, _ | ⟨c, _ | ⟨d, rest⟩⟩⟩⟩
    · simp [parse_duration, hfalse, hsp]
    · simp [parse_duration, hfalse, hsp]
    · rcases h2 a b hsp with h | h <;>
        rcases ha : pyToInt ⟨a⟩ with _ | x <;> rcases hb : pyToInt ⟨b⟩ with _ | y <;>
        simp_all [parse_duration, hfalse, hsp]
    · rcases h3 a b c hsp with h | h | h <;>
        rcases ha : pyToInt ⟨a⟩ with _ | x <;> rcases hb : pyToInt ⟨b⟩ with _ | y <;>
        rcases hc : pyToInt ⟨c⟩ with _ | z <;>
        simp_all [parse_duration, hfalse, hsp]
    · simp [parse_duration, hfalse, hsp]

/-- Witness for C6: the `MM:SS` clause applied at "7:05". -/
theorem c6_parse_duration_shapes_witness :
    parse_duration (.pystr "7:05") = some (7 * 60 + 5) :=
  c6_parse_duration_shapes.2.2.2.2.1 "7:05" ['7'] ['0', '5'] 7 5
    (by decide) (by decide) (by decide)

/-- C8: `is_likely_audio_url` rejects the empty URL; rejects any URL
containing a suspicious pattern, with that pattern's reason, regardless of
audio extensions; otherwise accepts when an audio extension occurs in the
lowercased URL; otherwise rejects when the final path segment contains a
dot; otherwise accepts; and the two spec examples hold. -/
theorem c8_is_likely_audio_url_heuristic :
    is_likely_audio_url "" = (false, "No URL provided") ∧
    (∀ (url : String) (q : String × String), url ≠ "" → q ∈ suspicious_patterns →
      substrS q.1 url = true →
      (is_likely_audio_url url).1 = false ∧
      ∃ q2 ∈ suspicious_patterns, is_likely_audio_url url = (false, q2.2)) ∧
    (∀ url : String, url ≠ "" →
      (∀ q ∈ suspicious_patterns, substrS q.1 url = false) →
      (∃ ext ∈ audio_extensions, substrS ext (pyLower url) = true) →
      is_likely_audio_url url = (true, "OK")) ∧
    (∀ url : String, url ≠ "" →
      (∀ q ∈ suspicious_patterns, substrS q.1 url = false) →
      (∀ ext ∈ audio_extensions, substrS ext (pyLower url) = false) →
      substrS "." (lastSegment url) = true →
      is_likely_audio_url url =
        (false, "URL doesn\x27t appear to have an audio file extension")) ∧
    (∀ url : String, url ≠ "" →
      (∀ q ∈ suspicious_patterns, substrS q.1 url = false) →
      (∀ ext ∈ audio_extensions, substrS ext (pyLower url) = false) →
      substrS "." (lastSegment url) = false →
      is_likely_audio_url url = (true, "OK")) ∧
    is_likely_audio_url "https://cdn.example.com/ep1.mp3" = (true, "OK") ∧
    is_likely_audio_url "https://example.com/media.php?id=1" =
      (false, "URL appears to be a PHP page, not an audio file") := by
  refine ⟨rfl, ?_, ?_, ?_, ?_, by decide, by decide⟩
  · intro url q hne hqmem hqsub
    have hsome : (suspicious_patterns.find? (fun p => substrS p.1 url)).isSome := by
      rw [List.find?_isSome]
      exact ⟨q, hqmem, hqsub⟩
    obtain ⟨p0, hp0⟩ := Option.isSome_iff_exists.mp hsome
    refine ⟨by simp [is_likely_audio_url, hne, hp0], p0, List.mem_of_find?_eq_some hp0,
      by simp [is_likely_audio_url, hne, hp0]⟩
  · intro url hne hq hext
    have hnone : suspicious_patterns.find? (fun p => substrS p.1 url) = none := by
      rw [List.find?_eq_none]
      intro q hqmem
      simp [hq q hqmem]
    have hany : audio_extensions.any (fun ext => substrS ext (pyLower url)) = true := by
      rw [List.any_eq_true]
      obtain ⟨ext, hmem, hsub⟩ := hext
      exact ⟨ext, hmem, hsub⟩
    simp [is_likely_audio_url, hne, hnone, hany]
  · intro url hne hq hext hdot
    have hnone : suspicious_patterns.find? (fun p => substrS p.1 url) = none := by
      rw [List.find?_eq_none]
      intro q hqmem
      simp [hq q hqmem]
    have hany : audio_extensions.any (fun ext => substrS ext (pyLower url)) = false := by
      rw [List.any_eq_false]
      intro ext hmem
      simp [hext ext hmem]
    simp [is_likely_audio_url, hne, hnone, hany, hdot]
  · intro url hne hq hext hdot
    have hnone : suspicious_patterns.find? (fun p => substrS p.1 url) = none := by
      rw [List.find?_eq_none]
      intro q hqmem
      simp [hq q hqmem]
    have hany : audio_extensions.any (fun ext => substrS ext (pyLower url)) = false := by
      rw [List.any_eq_false]
      intro ext hmem
      simp [hext ext hmem]
    simp [is_likely_audio_url, hne, hnone, hany, hdot]

/-- Witness for C8: the suspicious-pattern clause applied at the PHP URL,
and the extension clause at the mp3 URL. -/
theorem c8_is_likely_audio_url_heuristic_witness :
    (is_likely_audio_url "https://example.com/media.php?id=1").1 = false ∧
    is_likely_audio_url "https://cdn.example.com/ep1.mp3" = (true, "OK") := by
  refine ⟨(c8_is_likely_audio_url_heuristic.2.1 "https://example.com/media.php?id=1"
    ("media.php", "URL appears to be a PHP page, not an audio file")
    (by decide) (by decide) (by decide)).1, ?_⟩
  exact c8_is_likely_audio_url_heuristic.2.2.1 "https://cdn.example.com/ep1.mp3"
    (by decide) (by decide) ⟨".mp3", by decide, by decide⟩

theorem numberFrom_map_episode_number : ∀ (l : List EpData) (k : Nat),
    (numberFrom k l).map (fun e => e.episode_number) = List.range' k l.length
  | [], _ => rfl
  | ep :: rest, k => by
    simp [numberFrom, stampEpisode, numberFrom_map_episode_number rest (k + 1), List.range']

theorem reverse_take_reverse {α : Type} (l : List α) (n : Nat) :
    (l.reverse.take n).reverse = l.drop (l.length - n) := by
  have h := List.reverse_take (l := l.reverse) (n := n)
  simpa using h

/-- C1 counterexample: for the 3-entry feed dated out of order with
`limit=2`, the two archived episodes are the two most recent ("b", "c") but
carry episode numbers 1 and 2 — not 2 and 3 as the claim states — because
`backup_podcast` assigns numbers after the limit truncation. -/
theorem c1_numbering_counterexample :
    (plan_episodes [cexEntryA, cexEntryB, cexEntryC] (some 2)).map
        (fun e => e.episode_number) = [1, 2] ∧
    (plan_episodes [cexEntryA, cexEntryB, cexEntryC] (some 2)).map
        (fun e => e.episode_number) ≠ [2, 3] ∧
    (plan_episodes [cexEntryA, cexEntryB, cexEntryC] (some 2)).map
        (fun e => e.title) = ["b", "c"] := by
  refine ⟨by decide, by decide, by decide⟩

/-- C1 amended: episode numbers are the 1-based ranks within the kept
(post-truncation) oldest-first list — `1..k` in chronological order — and a
nonzero limit `n` keeps exactly the last `n` entries (the most recent) of
the full sorted order. -/
theorem c1_numbering_after_limit (entries : List FeedEntry) (limit : Option Nat) :
    (plan_episodes entries limit).map (fun e => e.episode_number) =
      List.range' 1 (applyLimit limit (sortEntries (entries.map extract_episode_data))).length ∧
    (∀ n : Nat, limit = some n → n ≠ 0 →
      applyLimit limit (sortEntries (entries.map extract_episode_data)) =
        (sortEntries (entries.map extract_episode_data)).drop
          ((sortEntries (entries.map extract_episode_data)).length - n)) := by
  constructor
  · exact numberFrom_map_episode_number _ 1
  · rintro n rfl hn
    simp [applyLimit, hn, reverse_take_reverse]

/-- Witness for C1 at the 3-entry feed with limit 2. -/
theorem c1_numbering_after_limit_witness :
    (plan_episodes [cexEntryA, cexEntryB, cexEntryC] (some 2)).map (fun e => e.episode_number) =
      List.range' 1 (applyLimit (some 2)
        (sortEntries ([cexEntryA, cexEntryB, cexEntryC].map extract_episode_data))).length ∧
    applyLimit (some 2) (sortEntries ([cexEntryA, cexEntryB, cexEntryC].map extract_episode_data)) =
      (sortEntries ([cexEntryA, cexEntryB, cexEntryC].map extract_episode_data)).drop
        ((sortEntries ([cexEntryA, cexEntryB, cexEntryC].map extract_episode_data)).length - 2) := by
  have h := c1_numbering_after_limit [cexEntryA, cexEntryB, cexEntryC] (some 2)
  exact ⟨h.1, h.2 2 rfl (by decide)⟩

/-- C2 counterexample: the links list yields a match (href "A") and the
enclosures list also contains an audio entry (href "B"); the returned
enclosure URL is "B", not "A" — the enclosures scan overwrites the links
result. -/
theorem c2_enclosure_counterexample :
    linksMatch cexLinkA = true ∧
    (extract_episode_data cexEntryEnc).enclosure_url = some "B" ∧
    (extract_episode_data cexEntryEnc).enclosure_url ≠ some "A" := by
  refine ⟨by decide, by decide, by decide⟩

/-- C2 amended: both lists are scanned with first-match-wins inside each,
but the enclosures list is scanned second and its match overrides the links
match: when the enclosures list yields an audio match, that entry supplies
the returned URL (href-or-url), type, and size; the links match supplies
them only when no enclosures entry matches; fields are never merged across
the two lists. -/
theorem c2_enclosures_take_precedence (links enclosures : List FeedLink)
    (entry : FeedEntry) :
    (∀ e : FeedLink, enclosures.find? encMatch = some e →
      find_enclosure links enclosures = (pyOrOpt e.href e.url, e.type, e.length)) ∧
    (enclosures.find? encMatch = none → ∀ l : FeedLink, links.find? linksMatch = some l →
      find_enclosure links enclosures = (l.href, l.type, l.length)) ∧
    (enclosures.find? encMatch = none → links.find? linksMatch = none →
      find_enclosure links enclosures = (none, none, none)) ∧
    ((extract_episode_data entry).enclosure_url,
      (extract_episode_data entry).enclosure_type,
      (extract_episode_data entry).enclosure_size) =
      find_enclosure entry.links entry.enclosures := by
  refine ⟨?_, ?_, ?_, rfl⟩
  · intro e he
    simp [find_enclosure, he]
  · intro hnone l hl
    simp [find_enclosure, hnone, hl]
  · intro hnone hlnone
    simp [find_enclosure, hnone, hlnone]

/-- Witness for C2 at the concrete two-list entry. -/
theorem c2_enclosures_take_precedence_witness :
    find_enclosure [cexLinkA] [cexEncB] = (some "B", some "audio/mpeg", none) := by
  have h := (c2_enclosures_take_precedence [cexLinkA] [cexEncB] cexEntryEnc).1
    cexEncB (by decide)
  rw [h]
  rfl

/-- C9 counterexample: two distinct episodes (numbers 1 and 2) with the same
publish date and title receive the same local filename — there is no
duplicate-index and uniqueness fails. -/
theorem c9_filename_counterexample :
    (plan_episodes [cexEntryDup, cexEntryDup] none).map (fun e => e.local_filename) =
      ["200501-x.mp3", "200501-x.mp3"] ∧
    (plan_episodes [cexEntryDup, cexEntryDup] none).map (fun e => e.episode_number) = [1, 2] ∧
    ¬ ((plan_episodes [cexEntryDup, cexEntryDup] none).map
        (fun e => e.local_filename)).Nodup := by
  refine ⟨by decide, by decide, by decide⟩

/-- C9 amended: the local filename is a deterministic function of the
published date and title alone for dated episodes (independent of position
or any duplicate-index, so equal date and title collide), and of the
1-based position and title for undated episodes. -/
theorem c9_filename_deterministic_not_unique :
    (∀ (ep1 ep2 : EpData) (idx1 idx2 : Nat) (d : StructTime),
      ep1.published_parsed = some d → ep2.published_parsed = some d →
      ep1.title = ep2.title →
      (stampEpisode idx1 ep1).local_filename = (stampEpisode idx2 ep2).local_filename) ∧
    (∀ (ep : EpData) (idx : Nat) (d : StructTime), ep.published_parsed = some d →
      (stampEpisode idx ep).local_filename =
        pad2 (d.tm_year % 100) ++ pad2 d.tm_mon ++ pad2 d.tm_mday ++ "-" ++
          sanitize_filename ep.title 80 ++ ".mp3") ∧
    (∀ (ep : EpData) (idx : Nat), ep.published_parsed = none →
      (stampEpisode idx ep).local_filename =
        zfill6 (toString idx) ++ "-" ++ sanitize_filename ep.title 80 ++ ".mp3") := by
  have hdated : ∀ (ep : EpData) (idx : Nat) (d : StructTime), ep.published_parsed = some d →
      (stampEpisode idx ep).local_filename =
        pad2 (d.tm_year % 100) ++ pad2 d.tm_mon ++ pad2 d.tm_mday ++ "-" ++
          sanitize_filename ep.title 80 ++ ".mp3" := by
    intro ep idx d h
    simp [stampEpisode, h, String.append_assoc]
  refine ⟨?_, hdated, ?_⟩
  · intro ep1 ep2 idx1 idx2 d h1 h2 ht
    rw [hdated ep1 idx1 d h1, hdated ep2 idx2 d h2, ht]
  · intro ep idx h
    simp [stampEpisode, h, String.append_assoc]

/-- Witness for C9: the same dated episode stamped at positions 1 and 2
yields the same filename. -/
theorem c9_filename_deterministic_not_unique_witness :
    (stampEpisode 1 (extract_episode_data cexEntryDup)).local_filename =
      (stampEpisode 2 (extract_episode_data cexEntryDup)).local_filename :=
  c9_filename_deterministic_not_unique.1 _ _ 1 2 ⟨2020, 5, 1⟩ (by decide) (by decide) rfl

theorem squeezeSpaces_sublist : ∀ l : List Char, (squeezeSpaces l).Sublist l
  | [] => by simp [squeezeSpaces]
  | [c] => by simp [squeezeSpaces]
  | a :: b :: rest => by
    rw [squeezeSpaces]
    split
    · exact (squeezeSpaces_sublist (b :: rest)).cons a
    · exact (squeezeSpaces_sublist (b :: rest)).cons₂ a

theorem mem_stripSpaces {c : Char} {l : List Char} (h : c ∈ stripSpaces l) : c ∈ l := by
  unfold stripSpaces at h
  rw [List.mem_reverse] at h
  have h2 := (List.dropWhile_sublist _).subset h
  rw [List.mem_reverse] at h2
  exact (List.dropWhile_sublist _).subset h2

theorem mem_rsplitLastDash {c : Char} {l : List Char} (h : c ∈ rsplitLastDash l) :
    c ∈ l := by
  unfold rsplitLastDash at h
  split at h
  · rw [List.mem_reverse] at h
    have h2 := (List.dropWhile_sublist _).subset ((List.drop_sublist _ _).subset h)
    rw [List.mem_reverse] at h2
    exact h2
  · exact h

theorem length_rsplitLastDash (l : List Char) : (rsplitLastDash l).length ≤ l.length := by
  unfold rsplitLastDash
  split
  · have h1 : ((l.reverse.dropWhile (fun c => c != '-')).drop 1).length ≤ l.reverse.length :=
      le_trans (List.drop_sublist _ _).length_le (List.dropWhile_sublist _).length_le
    simpa using h1
  · exact le_refl _

theorem sanitizeStage_chars (name : String) :
    ∀ c ∈ (stripSpaces (squeezeSpaces ((name.data.filter (fun c => !(illegalChar c))).map
        (fun c => if pyIsSpace c then ' ' else c)))).map (fun c => if c = ' ' then '-' else c),
      illegalChar c = false ∧ pyIsSpace c = false := by
  intro c hc
  rw [List.mem_map] at hc
  obtain ⟨c0, hc0, rfl⟩ := hc
  have hc1 := mem_stripSpaces hc0
  have hc2 := (squeezeSpaces_sublist _).subset hc1
  rw [List.mem_map] at hc2
  obtain ⟨c1, hc1mem, rfl⟩ := hc2
  have hil : illegalChar c1 = false := by
    have h := List.of_mem_filter hc1mem
    revert h
    cases illegalChar c1 <;> simp
  by_cases hws : pyIsSpace c1 = true
  · simp only [hws, if_true]
    decide
  · have hws2 : pyIsSpace c1 = false := by
      revert hws
      cases pyIsSpace c1 <;> simp
    have hnsp : c1 ≠ ' ' := by
      intro h
      rw [h] at hws2
      simp [pyIsSpace] at hws2
    simp [hws2, hnsp, hil]

/-- C7 counterexample: trimming at the hyphen boundary can empty the name,
and the "untitled" fallback then exceeds the requested maximum length:
`sanitize_filename("-abc", max_length=2)` is "untitled" (8 characters). -/
theorem c7_sanitize_filename_counterexample :
    sanitize_filename "-abc" 2 = "untitled" ∧
    2 < (sanitize_filename "-abc" 2).length := by
  refine ⟨by decide, by decide⟩

/-- C7 amended: `sanitize_filename` always returns a nonempty name free of
the illegal characters and of whitespace, and the result is at most
`max_length` characters long except when sanitization or trimming leaves
nothing and the result falls back to "untitled" (which may exceed
`max_length`); the spec's concrete example holds. -/
theorem c7_sanitize_filename_sound :
    (∀ (name : String) (max_length : Nat),
      sanitize_filename name max_length ≠ "" ∧
      (∀ c ∈ (sanitize_filename name max_length).data,
        illegalChar c = false ∧ pyIsSpace c = false) ∧
      ((sanitize_filename name max_length).length ≤ max_length ∨
        sanitize_filename name max_length = "untitled")) ∧
    sanitize_filename "Ep #1: A/B Test?" 10 = "Ep-#1-AB" ∧
    (sanitize_filename "Ep #1: A/B Test?" 10).length ≤ 10 := by
  refine ⟨?_, by decide, by decide⟩
  intro name max_length
  set l4 := (stripSpaces (squeezeSpaces ((name.data.filter (fun c => !(illegalChar c))).map
      (fun c => if pyIsSpace c then ' ' else c)))).map
      (fun c => if c = ' ' then '-' else c) with hl4
  set l5 := if max_length < l4.length then rsplitLastDash (l4.take max_length) else l4 with hl5
  have hdef : sanitize_filename name max_length = if l5.isEmpty then "untitled" else ⟨l5⟩ := rfl
  have hmem5 : ∀ c ∈ l5, c ∈ l4 := by
    intro c hc
    rw [hl5] at hc
    by_cases h : max_length < l4.length
    · rw [if_pos h] at hc
      exact (List.take_sublist _ _).subset (mem_rsplitLastDash hc)
    · rw [if_neg h] at hc
      exact hc
  have hlen5 : l5.length ≤ max_length := by
    rw [hl5]
    by_cases h : max_length < l4.length
    · rw [if_pos h]
      refine le_trans (length_rsplitLastDash _) ?_
      have := List.length_take max_length l4
      simp [this]
    · rw [if_neg h]
      exact Nat.le_of_not_lt h
  rw [hdef]
  by_cases hE : l5.isEmpty
  · rw [if_pos hE]
    refine ⟨by decide, by decide, Or.inr rfl⟩
  · rw [if_neg hE]
    have hne : l5 ≠ [] := by
      intro h
      rw [h] at hE
      exact hE rfl
    refine ⟨?_, ?_, Or.inl ?_⟩
    · intro h
      rw [String.ext_iff] at h
      exact hne h
    · intro c hc
      exact sanitizeStage_chars name c (hmem5 c hc)
    · exact hlen5

/-- Witness for C7 at the spec's concrete input. -/
theorem c7_sanitize_filename_sound_witness :
    sanitize_filename "Ep #1: A/B Test?" 10 ≠ "" ∧
    ((sanitize_filename "Ep #1: A/B Test?" 10).length ≤ 10 ∨
      sanitize_filename "Ep #1: A/B Test?" 10 = "untitled") :=
  ⟨(c7_sanitize_filename_sound.1 "Ep #1: A/B Test?" 10).1,
   (c7_sanitize_filename_sound.1 "Ep #1: A/B Test?" 10).2.2⟩

/-- C3 counterexample: a non-interactive sequential run with a valid URL and
a failing download resolves to `skip_all`, and the episode is dropped from
the manifest entirely — it does not appear with `audio_missing`/`audio_error`
set, contrary to the claim. -/
theorem c3_recoverable_error_counterexample :
    process_episode_seq cexEpisode false [] true false (.error ⟨"boom", "ConnectionError"⟩)
        (.ok "full") .c1 .c1 .c1 = (.dropped, []) ∧
    (∀ ep : EpData,
      (process_episode_seq cexEpisode false [] true false (.error ⟨"boom", "ConnectionError"⟩)
          (.ok "full") .c1 .c1 .c1).1 ≠ .kept ep) := by
  refine ⟨by decide, ?_⟩
  intro ep h
  have h1 : (process_episode_seq cexEpisode false [] true false
      (.error ⟨"boom", "ConnectionError"⟩) (.ok "full") .c1 .c1 .c1).1 =
      EpOutcome.dropped := by decide
  rw [h1] at h
  exact EpOutcome.noConfusion h

/-- C3 amended: recoverable per-episode failures never raise past the
per-episode boundary, but whether the episode still appears in the manifest
depends on the path and the decision: in the sequential loop a download
failure keeps the episode with `audio_missing`/`audio_error` set exactly
when the error-policy decision is `continue`, while `skip`/`skip_all` — the
automatic decision of non-interactive runs — drop it, and `abort` ends the
run; the parallel path always keeps the flagged episode, both on a download
failure and on an invalid enclosure URL (flagged before dispatch, whatever
the file state or download outcome); a missing enclosure URL drops the
episode in both paths. -/
theorem c3_recoverable_error_manifest (ep : EpData)
    (decisions : List (String × Decision)) (skip_existing : Bool) (e : PyErr)
    (embedR : Except PyErr String) (uc dc ec : UserChoice) :
    pyTruthyStr ep.enclosure_url = true →
    (is_likely_audio_url (ep.enclosure_url.getD "")).1 = true →
    ((∀ interactive : Bool,
      (handle_error_interactive decisions (get_error_key e) interactive dc).1 = .cont →
      process_episode_seq ep interactive decisions skip_existing false (.error e) embedR
          uc dc ec =
        (.kept { ep with audio_missing := true, audio_error := some e.text },
         (handle_error_interactive decisions (get_error_key e) interactive dc).2)) ∧
     (∀ interactive : Bool,
      ((handle_error_interactive decisions (get_error_key e) interactive dc).1 = .skip ∨
       (handle_error_interactive decisions (get_error_key e) interactive dc).1 = .skip_all) →
      process_episode_seq ep interactive decisions skip_existing false (.error e) embedR
          uc dc ec =
        (.dropped, (handle_error_interactive decisions (get_error_key e) interactive dc).2)) ∧
     (∀ interactive : Bool,
      (handle_error_interactive decisions (get_error_key e) interactive dc).1 = .abort →
      process_episode_seq ep interactive decisions skip_existing false (.error e) embedR
          uc dc ec =
        (.aborted, (handle_error_interactive decisions (get_error_key e) interactive dc).2))) ∧
    (handle_error_interactive decisions (get_error_key e) false dc).1 = .skip_all ∧
    process_episode_seq ep false decisions skip_existing false (.error e) embedR uc dc ec =
      (.dropped, decisions) ∧
    process_episode_parallel ep false (.error e.text) =
      some { ep with audio_missing := true, audio_error := some e.text } ∧
    (∀ (ep3 : EpData) (fileExists : Bool) (dl2 : Except String Int),
      pyTruthyStr ep3.enclosure_url = true →
      (is_likely_audio_url (ep3.enclosure_url.getD "")).1 = false →
      process_episode_parallel ep3 fileExists dl2 =
        some { ep3 with
                 audio_missing := true,
                 audio_error := some ("Invalid URL: " ++
                   (is_likely_audio_url (ep3.enclosure_url.getD "")).2) }) ∧
    (∀ ep2 : EpData, pyTruthyStr ep2.enclosure_url = false →
      process_episode_seq ep2 false decisions skip_existing false (.error e) embedR uc dc ec =
        (.dropped, decisions) ∧
      process_episode_parallel ep2 false (.error e.text) = none) := by
  intro h1 h2
  refine ⟨⟨?_, ?_, ?_⟩, ?_, ?_, ?_, ?_, ?_⟩
  · intro interactive hcont
    simp [process_episode_seq, h1, h2, hcont]
  · intro interactive hskip
    rcases hskip with hs | hs <;> simp [process_episode_seq, h1, h2, hs]
  · intro interactive habort
    simp [process_episode_seq, h1, h2, habort]
  · simp [handle_error_interactive]
  · simp [process_episode_seq, h1, h2, handle_error_interactive]
  · simp [process_episode_parallel, h1, h2]
  · intro ep3 fileExists dl2 h3 h4
    simp [process_episode_parallel, h3, h4]
  · intro ep2 hx
    exact ⟨by simp [process_episode_seq, hx], by simp [process_episode_parallel, hx]⟩

/-- Witness for C3: an interactive run choosing "save metadata for all"
keeps the flagged episode and remembers the decision; the parallel path
keeps the flagged episode both on a download failure and on an invalid
(PHP-page) enclosure URL, at concrete inputs. -/
theorem c3_recoverable_error_manifest_witness :
    process_episode_seq cexEpisode true [] true false (.error ⟨"boom", "ConnectionError"⟩)
        (.ok "full") .c1 .c4 .c1 =
      (.kept { cexEpisode with audio_missing := true, audio_error := some "boom" },
       [("ConnectionError", .cont)]) ∧
    process_episode_parallel cexEpisode false (.error "boom") =
      some { cexEpisode with audio_missing := true, audio_error := some "boom" } ∧
    process_episode_parallel cexEpisodeBadUrl false (.error "boom") =
      some { cexEpisodeBadUrl with
               audio_missing := true,
               audio_error :=
                 some "Invalid URL: URL appears to be a PHP page, not an audio file" } := by
  have h := c3_recoverable_error_manifest cexEpisode [] true ⟨"boom", "ConnectionError"⟩
    (.ok "full") .c1 .c4 .c1 (by decide) (by decide)
  refine ⟨(h.1.1 true (by decide)).trans (by decide), h.2.2.2.1, ?_⟩
  exact (h.2.2.2.2.1 cexEpisodeBadUrl false (.error "boom")
    (by decide) (by decide)).trans (by decide)

end PodcastBackup
